import Mathlib

/-!
Shallow embedding of src/stock_market_analysis.py: the persistence and
classification pipeline (save_to_csv, load_recent_data,
analyze_market_sentiment).  Design choices of the embedding:

* Cell values of the value column are Python floats or strings; a finite
  float is kept as an exact rational (Python float repr round-trips through
  str), the float NaN is an explicit constructor, since the pipeline relies
  on NaN propagation and on comparisons with NaN being false.
* Dates and timestamps are modelled at calendar-day granularity as integers
  (day numbers); datetime.now() is a parameter now of each operation.
* The filesystem is modelled by an explicit artifact state; a failing
  pandas read raises, which the embedding represents with Except (for
  save_to_csv, which has no handler) or with an explicit failure outcome
  consumed by the try/except of load_recent_data.
* Lines 155-158, 167 and 172 of the source are truncated mid-expression
  right after .iloc; the evident completion .iloc[0] (first row of the
  selected series) is used.  The visible wrappers around those
  subscripts - float(...) in every case - are taken from the source as
  written.
-/

namespace StockMarket

/-- Item labels and sentiment strings used by the source, bound to names
once so that the vocabulary is fixed in a single place. -/
def itemRise : String := "上涨"

/-- Item label of declining instruments. -/
def itemFall : String := "下跌"

/-- Item label of unchanged instruments. -/
def itemFlat : String := "平盘"

/-- Item label of suspended instruments. -/
def itemSusp : String := "停牌"

/-- Item label of the activity percentage. -/
def itemActivity : String := "活跃度"

/-- Item label of the real limit-up count. -/
def itemLimitUp : String := "真实涨停"

/-- Sentiment string of line 176 (strongly bullish). -/
def sentStrongBull : String := "强势看多"

/-- Sentiment string of line 178 (mildly bullish). -/
def sentMildBull : String := "温和看多"

/-- Sentiment string of line 180 (cautiously bearish). -/
def sentBear : String := "谨慎看空"

/-- Sentiment string of line 182 (neutral / choppy). -/
def sentNeutralChoppy : String := "中性震荡"

/-- Default sentiment string of line 136. -/
def sentNeutral : String := "中性"

/-- Raw cell value as it sits in a pandas column: a finite float, the float
NaN, or a string. -/
inductive PyVal where
  | num (q : ℚ)
  | nan
  | str (s : String)
deriving DecidableEq

/-- Numeric value of a decimal digit character. -/
def digitVal (c : Char) : ℕ := c.toNat - 48

/-- Value of a digit list read most-significant first. -/
def natOfDigits (cs : List Char) : ℕ := cs.foldl (fun a c => a * 10 + digitVal c) 0

/-- Unsigned decimal literal: digits, optionally followed by a dot and more
digits, at least one digit overall.  The result is a scaled integer
(mantissa, number of fractional digits), so that this layer stays free of
rational arithmetic.  (Exponent forms of Python float syntax are not used
by this pipeline and are not modelled.) -/
def parseUnsigned (cs : List Char) : Option (ℕ × ℕ) :=
  match cs.dropWhile Char.isDigit with
  | [] => if (cs.takeWhile Char.isDigit).isEmpty then none else some (natOfDigits cs, 0)
  | '.' :: frac =>
      if frac.all Char.isDigit && (!(cs.takeWhile Char.isDigit).isEmpty || !frac.isEmpty) then
        some (natOfDigits (cs.takeWhile Char.isDigit) * 10 ^ frac.length + natOfDigits frac,
              frac.length)
      else none
  | _ => none

/-- Signed decimal literal with surrounding whitespace tolerated, as a
scaled integer (signed mantissa, number of fractional digits). -/
def pyParseRepr (s : String) : Option (ℤ × ℕ) :=
  match ((s.toList.dropWhile Char.isWhitespace).reverse.dropWhile Char.isWhitespace).reverse with
  | '-' :: rest => (parseUnsigned rest).map (fun p => (-(p.1 : ℤ), p.2))
  | '+' :: rest => (parseUnsigned rest).map (fun p => ((p.1 : ℤ), p.2))
  | cs => (parseUnsigned cs).map (fun p => ((p.1 : ℤ), p.2))

/-- Model of float-string parsing as used by pd.to_numeric and
astype(float): none means the parse fails (to_numeric coerces that to NaN,
astype(float) raises). -/
def pyParseFloat (s : String) : Option ℚ :=
  (pyParseRepr s).map (fun p => (p.1 : ℚ) / 10 ^ p.2)

/-- str.replace of lines 57 and 145: every percent sign is removed. -/
def stripPercent (s : String) : String := String.mk (s.toList.filter (fun c => c ≠ '%'))

/-- Lines 57-59 of load_recent_data, applied element-wise to the value
column: astype(str), strip all percent signs, pd.to_numeric with
errors=coerce.  A finite float round-trips through its repr string (which
contains no percent sign); NaN becomes the string nan, which to_numeric
coerces back to NaN; an unparseable string becomes NaN - the missing-value
sentinel - never a raised error and never zero. -/
def normalizeValue : PyVal → PyVal
  | .num q => .num q
  | .nan => .nan
  | .str s =>
      match pyParseFloat (stripPercent s) with
      | some q => .num q
      | none => .nan

/-- Row of the persisted history: columns item, value, timestamp, date
(lines 29-30 add the last two).  The timestamp column is informational
only; both time columns are day numbers in this model. -/
structure Row where
  item : String
  value : PyVal
  ts : ℤ
  date : ℤ
deriving DecidableEq

/-- Row of an incoming fetch batch: an (item, value) pair, before
save_to_csv stamps it. -/
structure BatchRow where
  item : String
  value : PyVal
deriving DecidableEq

/-- Lines 29-30: stamp a batch row with the capture time and its calendar
day. -/
def stampRow (now : ℤ) (r : BatchRow) : Row :=
  { item := r.item, value := r.value, ts := now, date := now }

/-- State of the CSV artifact that save_to_csv resolves for the day:
missing, present but unreadable (pd.read_csv raises), or readable with the
given rows. -/
inductive Artifact where
  | absent
  | corrupt
  | stored (rows : List Row)
deriving DecidableEq

/-- Lines 23-40 (save_to_csv): stamp the batch, then, if the file exists,
read it and write existing rows followed by the stamped batch; otherwise
write the stamped batch alone.  The function body contains no exception
handler, so a failing read of an existing file escapes to the caller,
which the Except error branch represents; no write happens in that case. -/
def saveToCsv (art : Artifact) (batch : List BatchRow) (now : ℤ) : Except Unit Artifact :=
  match art with
  | .absent => .ok (.stored (batch.map (stampRow now)))
  | .corrupt => .error ()
  | .stored h => .ok (.stored (h ++ batch.map (stampRow now)))

/-- Line 43: the directory listing filtered to names that start with
market_activity_ and end with .csv. -/
def csvNamePre : String := "market_activity_"

/-- Suffix required of candidate files at line 43. -/
def csvNameSuf : String := ".csv"

/-- str.startswith over the character sequences of the strings. -/
def startsWithS (s pre : String) : Bool := pre.toList.isPrefixOf s.toList

/-- str.endswith over the character sequences of the strings. -/
def endsWithS (s suf : String) : Bool := suf.toList.reverse.isPrefixOf s.toList.reverse

/-- Candidate CSV files of line 43. -/
def listingCsvFiles (listing : List String) : List String :=
  listing.filter (fun f => startsWithS f csvNamePre && endsWithS f csvNameSuf)

/-- Outcome of reading and date-parsing the most-recently-modified
candidate file inside the try block of load_recent_data (lines 50-54): the
read or parse raises, or yields rows whose date column is already a
comparable day number. -/
inductive ReadOutcome where
  | failure
  | table (rows : List Row)
deriving DecidableEq

/-- Lines 41-68 (load_recent_data): None when no candidate file exists or
when the try block raises; otherwise the rows of the newest file with the
value column normalized (lines 57-59) and then filtered to
date >= now - days (lines 62-63).  The choice of the newest file by
modification time is abstracted into the latest argument.  An empty
selection is returned as an empty table, not as None. -/
def loadRecentData (listing : List String) (latest : ReadOutcome) (now days : ℤ) :
    Option (List Row) :=
  if (listingCsvFiles listing).isEmpty then none
  else
    match latest with
    | .failure => none
    | .table rows =>
        some (((rows.map (fun r => { r with value := normalizeValue r.value })).filter
          (fun r => decide (now - days ≤ r.date))))

/-- Row of the classifier after line 145 converted the value column: the
value is a float, possibly NaN (none). -/
structure CRow where
  item : String
  value : Option ℚ
  ts : ℤ
  date : ℤ
deriving DecidableEq

/-- Conversion of one cell at line 145: astype(str), strip percent signs,
astype(float).  The outer none is a raised ValueError (astype raises on an
unparseable string, unlike to_numeric with coerce); the inner none is NaN,
which survives the round trip through the string nan. -/
def convertVal : PyVal → Option (Option ℚ)
  | .num q => some (some q)
  | .nan => some none
  | .str s =>
      match pyParseFloat (stripPercent s) with
      | some q => some (some q)
      | none => none

/-- Line 145 applied to the whole value column of the latest rows: the
column is converted atomically, and a raise on any cell aborts the whole
assignment. -/
def convertValues : List Row → Option (List CRow)
  | [] => some []
  | r :: rs =>
      match convertVal r.value, convertValues rs with
      | some v, some cs => some ({ item := r.item, value := v, ts := r.ts, date := r.date } :: cs)
      | _, _ => none

/-- Maximum of the date column (line 128 and line 131); 0 is a dummy for
the empty frame, which analyze_market_sentiment never reaches. -/
def maxDate : List Row → ℤ
  | [] => 0
  | r :: rs => rs.foldl (fun m x => if m ≤ x.date then x.date else m) r.date

/-- Line 128: the rows of the latest day. -/
def latestRows (w : List Row) : List Row :=
  w.filter (fun r => decide (r.date = maxDate w))

/-- Series selection of lines 148-151, 165, 170: values of the rows whose
item equals the given label, in frame order. -/
def itemValues (rows : List CRow) (it : String) : List (Option ℚ) :=
  (rows.filter (fun r => decide (r.item = it))).map (fun r => r.value)

/-- Float addition with NaN propagation. -/
def pfAdd : Option ℚ → Option ℚ → Option ℚ
  | some a, some b => some (a + b)
  | _, _ => none

/-- Float multiplication with NaN propagation. -/
def pfMul : Option ℚ → Option ℚ → Option ℚ
  | some a, some b => some (a * b)
  | _, _ => none

/-- Float division with NaN propagation (only reached under a positive
divisor in the source). -/
def pfDiv : Option ℚ → Option ℚ → Option ℚ
  | some a, some b => some (a / b)
  | _, _ => none

/-- Strict greater-than against a constant; false on NaN, as for Python
floats. -/
def pfGt (x : Option ℚ) (c : ℚ) : Bool :=
  match x with
  | some a => decide (c < a)
  | none => false

/-- Strict less-than against a constant; false on NaN. -/
def pfLt (x : Option ℚ) (c : ℚ) : Bool :=
  match x with
  | some a => decide (a < c)
  | none => false

/-- Round-half-even to an integer, the rounding mode of the Python round
builtin (modelled over exact rationals). -/
def rhe (q : ℚ) : ℤ :=
  if q - ⌊q⌋ < 1/2 then ⌊q⌋
  else if (1 : ℚ)/2 < q - ⌊q⌋ then ⌊q⌋ + 1
  else if ⌊q⌋ % 2 = 0 then ⌊q⌋ else ⌊q⌋ + 1

/-- round(q, 2) over exact rationals. -/
def round2q (q : ℚ) : ℚ := (rhe (q * 100) : ℚ) / 100

/-- round(x, 2) on a float: NaN stays NaN. -/
def pfRound2 (x : Option ℚ) : Option ℚ := x.map round2q

/-- Sentiment analysis result of lines 130-137: the dictionary with its
default field values filled in before the try block. -/
structure Analysis where
  date : ℤ
  total_stocks : Option ℚ
  rise_ratio : Option ℚ
  activity_level : Option ℚ
  limit_up_count : Option ℚ
  sentiment : String
deriving DecidableEq

/-- Lines 130-137: the analysis dictionary before the try block runs. -/
def defaultAnalysis (d : ℤ) : Analysis :=
  { date := d, total_stocks := some 0, rise_ratio := some 0, activity_level := some 0,
    limit_up_count := some 0, sentiment := sentNeutral }

/-- Sum of lines 155-160: rise + fall + flat + suspension of the first row
of each required series. -/
def totalOf (rows : List CRow) : Option ℚ :=
  pfAdd (pfAdd (pfAdd ((itemValues rows itemRise).headD none)
    ((itemValues rows itemFall).headD none)) ((itemValues rows itemFlat).headD none))
    ((itemValues rows itemSusp).headD none)

/-- Lines 148-162: when all four required series are non-empty, assign
total_stocks and rise_ratio (rounded ratio when the total is positive,
else zero); otherwise leave the dictionary untouched.  The source guards
with a conjunction of non-emptiness checks; the complement is the
disjunction of emptiness checks written here. -/
def stepTotals (rows : List CRow) (a : Analysis) : Analysis :=
  if (itemValues rows itemRise).isEmpty || (itemValues rows itemFall).isEmpty
      || (itemValues rows itemFlat).isEmpty || (itemValues rows itemSusp).isEmpty then a
  else
    { a with
      total_stocks := totalOf rows,
      rise_ratio :=
        if pfGt (totalOf rows) 0 then
          pfRound2 (pfMul (pfDiv ((itemValues rows itemRise).headD none) (totalOf rows))
            (some 100))
        else some 0 }

/-- Lines 164-167: assign the first activity value when the series is
non-empty (float of the value, no rounding in the source). -/
def stepActivity (rows : List CRow) (a : Analysis) : Analysis :=
  { a with activity_level := (itemValues rows itemActivity).headD a.activity_level }

/-- Lines 169-172: assign the first limit-up value when the series is
non-empty (float of the value; the source does not convert to int). -/
def stepLimitUp (rows : List CRow) (a : Analysis) : Analysis :=
  { a with limit_up_count := (itemValues rows itemLimitUp).headD a.limit_up_count }

/-- Lines 175-182: the if/elif/elif/else ladder, first match wins. -/
def sentimentLabel (rr lu : Option ℚ) : String :=
  if pfGt rr 60 && pfGt lu 50 then sentStrongBull
  else if pfGt rr 50 && pfGt lu 30 then sentMildBull
  else if pfLt rr 40 && pfLt lu 20 then sentBear
  else sentNeutralChoppy

/-- Body of the try block after the value column converted successfully:
totals, activity, limit-up, then the sentiment ladder over the fields just
computed. -/
def classifyConverted (d : ℤ) (rows : List CRow) : Analysis :=
  let a := stepLimitUp rows (stepActivity rows (stepTotals rows (defaultAnalysis d)))
  { a with sentiment := sentimentLabel a.rise_ratio a.limit_up_count }

/-- Lines 128-190 for a non-empty frame: select the latest day, build the
default dictionary, then run the try block.  When the conversion of the
value column raises, the except clause at lines 184-188 logs and falls
through to return the dictionary as populated so far, i.e. the defaults. -/
def analyzeCore (w : List Row) : Analysis :=
  match convertValues (latestRows w) with
  | none => defaultAnalysis (maxDate w)
  | some rows => classifyConverted (maxDate w) rows

/-- Lines 122-190 (analyze_market_sentiment): None for a missing or empty
frame, otherwise the analysis dictionary; no exception escapes. -/
def analyzeMarketSentiment : Option (List Row) → Option Analysis
  | none => none
  | some w => if w.isEmpty then none else some (analyzeCore w)

/-! Concrete fixtures used by the instance parts of the claims. -/

/-- Raw activity string with a fractional part that rounding would change. -/
def actRawS : String := "12.345%"

/-- Raw percent string of the normalizer test. -/
def pct123S : String := "12.3%"

/-- Plain integer string of the normalizer test. -/
def fiveS : String := "5"

/-- Unparseable string of the normalizer test. -/
def abcS : String := "abc"

/-- Candidate file name used by the load fixtures. -/
def demoFile : String := "market_activity_20240101.csv"

/-- Directory listing with one candidate file. -/
def demoListing : List String := [demoFile]

/-- One-row batch for the save fixtures. -/
def demoBatch : List BatchRow := [{ item := itemRise, value := .num 1 }]

/-- Stored row far older than any 60-day window relative to day 0. -/
def oldRow : Row := { item := itemRise, value := .num 1, ts := -100, date := -100 }

/-- History with dates d-100, d-61, d-60, d-1, d. -/
def histRows (d : ℤ) : List Row :=
  [{ item := itemRise, value := .num 1, ts := d - 100, date := d - 100 },
   { item := itemRise, value := .num 1, ts := d - 61, date := d - 61 },
   { item := itemRise, value := .num 1, ts := d - 60, date := d - 60 },
   { item := itemRise, value := .num 1, ts := d - 1, date := d - 1 },
   { item := itemRise, value := .num 1, ts := d, date := d }]

/-- The three rows of histRows with date at least d-60. -/
def selRows (d : ℤ) : List Row :=
  [{ item := itemRise, value := .num 1, ts := d - 60, date := d - 60 },
   { item := itemRise, value := .num 1, ts := d - 1, date := d - 1 },
   { item := itemRise, value := .num 1, ts := d, date := d }]

/-- Latest-day window with advancing 3500, declining 1000, unchanged 200,
suspended 50, limit-up 80. -/
def bullWindow : List Row :=
  [{ item := itemRise, value := .num 3500, ts := 0, date := 0 },
   { item := itemFall, value := .num 1000, ts := 0, date := 0 },
   { item := itemFlat, value := .num 200, ts := 0, date := 0 },
   { item := itemSusp, value := .num 50, ts := 0, date := 0 },
   { item := itemLimitUp, value := .num 80, ts := 0, date := 0 }]

/-- bullWindow after the value-column conversion of line 145. -/
def bullRows : List CRow :=
  [{ item := itemRise, value := some 3500, ts := 0, date := 0 },
   { item := itemFall, value := some 1000, ts := 0, date := 0 },
   { item := itemFlat, value := some 200, ts := 0, date := 0 },
   { item := itemSusp, value := some 50, ts := 0, date := 0 },
   { item := itemLimitUp, value := some 80, ts := 0, date := 0 }]

/-- Window whose rise ratio is 45 and limit-up count 10. -/
def neutralWindow : List Row :=
  [{ item := itemRise, value := .num 45, ts := 0, date := 0 },
   { item := itemFall, value := .num 55, ts := 0, date := 0 },
   { item := itemFlat, value := .num 0, ts := 0, date := 0 },
   { item := itemSusp, value := .num 0, ts := 0, date := 0 },
   { item := itemLimitUp, value := .num 10, ts := 0, date := 0 }]

/-- neutralWindow after the value-column conversion. -/
def neutralRows : List CRow :=
  [{ item := itemRise, value := some 45, ts := 0, date := 0 },
   { item := itemFall, value := some 55, ts := 0, date := 0 },
   { item := itemFlat, value := some 0, ts := 0, date := 0 },
   { item := itemSusp, value := some 0, ts := 0, date := 0 },
   { item := itemLimitUp, value := some 10, ts := 0, date := 0 }]

/-- Window with a fractional activity percentage and a fractional limit-up
value, exposing that the source neither rounds the former nor truncates
the latter to an integer. -/
def floatWindow : List Row :=
  [{ item := itemActivity, value := .str actRawS, ts := 0, date := 0 },
   { item := itemLimitUp, value := .num (161/2), ts := 0, date := 0 }]

/-- floatWindow after the value-column conversion. -/
def floatRows : List CRow :=
  [{ item := itemActivity, value := some (2469/200), ts := 0, date := 0 },
   { item := itemLimitUp, value := some (161/2), ts := 0, date := 0 }]

/-- Window whose only value cannot be parsed as a float, so line 145
raises inside the try block. -/
def badWindow : List Row := [{ item := itemRise, value := .str abcS, ts := 0, date := 0 }]

/-- Window missing all four required items. -/
def missingWindow : List Row :=
  [{ item := itemActivity, value := .num 50, ts := 0, date := 0 }]

/-- missingWindow after the value-column conversion. -/
def missingRows : List CRow :=
  [{ item := itemActivity, value := some 50, ts := 0, date := 0 }]

/-! Shared helper lemmas about the classifier steps. -/

/-- stepTotals only writes total_stocks and rise_ratio. -/
lemma stepTotals_activity (rows : List CRow) (a : Analysis) :
    (stepTotals rows a).activity_level = a.activity_level := by
  unfold stepTotals; split <;> rfl

/-- stepTotals leaves limit_up_count alone. -/
lemma stepTotals_limit (rows : List CRow) (a : Analysis) :
    (stepTotals rows a).limit_up_count = a.limit_up_count := by
  unfold stepTotals; split <;> rfl

/-- stepTotals is the identity when any required series is empty (the
guard of line 154 fails). -/
lemma stepTotals_skip (rows : List CRow) (a : Analysis)
    (h : ((itemValues rows itemRise).isEmpty || (itemValues rows itemFall).isEmpty
      || (itemValues rows itemFlat).isEmpty || (itemValues rows itemSusp).isEmpty) = true) :
    stepTotals rows a = a := by
  unfold stepTotals; simp [h]

/-- The final sentiment field is the ladder applied to the final ratio and
limit-up fields. -/
lemma classifyConverted_sentiment (d : ℤ) (rows : List CRow) :
    (classifyConverted d rows).sentiment =
      sentimentLabel (classifyConverted d rows).rise_ratio
        (classifyConverted d rows).limit_up_count := rfl

/-- The final activity field is the first activity value, defaulting to
zero. -/
lemma classifyConverted_activity (d : ℤ) (rows : List CRow) :
    (classifyConverted d rows).activity_level =
      (itemValues rows itemActivity).headD (some 0) := by
  simp [classifyConverted, stepLimitUp, stepActivity, stepTotals_activity, defaultAnalysis]

/-- The final limit-up field is the first limit-up value, defaulting to
zero. -/
lemma classifyConverted_limit (d : ℤ) (rows : List CRow) :
    (classifyConverted d rows).limit_up_count =
      (itemValues rows itemLimitUp).headD (some 0) := by
  simp [classifyConverted, stepLimitUp, stepActivity, stepTotals_limit, defaultAnalysis]

/-- On a successful conversion, the classifier runs the try body. -/
lemma analyzeCore_conv (w : List Row) (rows : List CRow)
    (h : convertValues (latestRows w) = some rows) :
    analyzeCore w = classifyConverted (maxDate w) rows := by
  simp [analyzeCore, h]

/-- A non-empty window reaches analyzeCore. -/
lemma analyzeMarketSentiment_cons (r : Row) (rs : List Row) :
    analyzeMarketSentiment (some (r :: rs)) = some (analyzeCore (r :: rs)) := by
  simp [analyzeMarketSentiment]

/-- Emptiness check of line 124 stated on the boolean. -/
lemma analyzeMarketSentiment_nonempty (w : List Row) (h : w.isEmpty = false) :
    analyzeMarketSentiment (some w) = some (analyzeCore w) := by
  simp [analyzeMarketSentiment, h]

/-! Claim theorems. -/

/-- C1: the sentiment label of every successfully converted window is the
lines 175-182 ladder (first match wins) applied to the computed rise_ratio
and limit_up_count; the window with advancing 3500, declining 1000,
unchanged 200, suspended 50 and limit-up 80 yields total 4750, rise ratio
73.68 and the strongly-bullish label; a window with rise ratio 45 and
limit-up 10 falls through all three specific rules to neutral/choppy. -/
theorem sentiment_rules_correct :
    (∀ (w : List Row) (rows : List CRow), convertValues (latestRows w) = some rows →
      (analyzeCore w).sentiment =
        sentimentLabel (analyzeCore w).rise_ratio (analyzeCore w).limit_up_count)
    ∧ analyzeMarketSentiment (some bullWindow) =
        some { date := 0, total_stocks := some 4750, rise_ratio := some (1842/25),
               activity_level := some 0, limit_up_count := some 80, sentiment := sentStrongBull }
    ∧ analyzeMarketSentiment (some neutralWindow) =
        some { date := 0, total_stocks := some 100, rise_ratio := some 45,
               activity_level := some 0, limit_up_count := some 10,
               sentiment := sentNeutralChoppy } := by
  refine ⟨fun w rows h => ?_, ?_, ?_⟩
  · rw [analyzeCore_conv w rows h]; exact classifyConverted_sentiment _ _
  · have hlat : latestRows bullWindow = bullWindow := by
      simp [latestRows, maxDate, bullWindow, List.filter]
    have hconv : convertValues (latestRows bullWindow) = some bullRows := by
      rw [hlat]; simp [convertValues, convertVal, bullWindow, bullRows]
    have hmax : maxDate bullWindow = 0 := by simp [maxDate, bullWindow]
    rw [analyzeMarketSentiment_nonempty bullWindow (by decide),
      analyzeCore_conv bullWindow bullRows hconv, hmax]
    have hr : itemValues bullRows itemRise = [some 3500] := by
      simp [itemValues, bullRows, List.filter, itemRise, itemFall, itemFlat, itemSusp, itemLimitUp]
    have hf : itemValues bullRows itemFall = [some 1000] := by
      simp [itemValues, bullRows, List.filter, itemRise, itemFall, itemFlat, itemSusp, itemLimitUp]
    have hfl : itemValues bullRows itemFlat = [some 200] := by
      simp [itemValues, bullRows, List.filter, itemRise, itemFall, itemFlat, itemSusp, itemLimitUp]
    have hs : itemValues bullRows itemSusp = [some 50] := by
      simp [itemValues, bullRows, List.filter, itemRise, itemFall, itemFlat, itemSusp, itemLimitUp]
    have ha : itemValues bullRows itemActivity = [] := by
      simp [itemValues, bullRows, List.filter, itemRise, itemFall, itemFlat, itemSusp,
        itemLimitUp, itemActivity]
    have hl : itemValues bullRows itemLimitUp = [some 80] := by
      simp [itemValues, bullRows, List.filter, itemRise, itemFall, itemFlat, itemSusp, itemLimitUp]
    have htot : totalOf bullRows = some 4750 := by
      norm_num [totalOf, hr, hf, hfl, hs, pfAdd]
    have hrr : pfRound2 (pfMul (pfDiv (some (3500 : ℚ)) (some (4750 : ℚ))) (some 100)) =
        some (1842/25) := by
      norm_num [pfMul, pfDiv, pfRound2, round2q, rhe]
    norm_num [classifyConverted, stepTotals, stepActivity, stepLimitUp, hr, hf, hfl, hs, ha, hl,
      htot, hrr, defaultAnalysis, sentimentLabel, pfGt, pfLt]
  · have hlat : latestRows neutralWindow = neutralWindow := by
      simp [latestRows, maxDate, neutralWindow, List.filter]
    have hconv : convertValues (latestRows neutralWindow) = some neutralRows := by
      rw [hlat]; simp [convertValues, convertVal, neutralWindow, neutralRows]
    have hmax : maxDate neutralWindow = 0 := by simp [maxDate, neutralWindow]
    rw [analyzeMarketSentiment_nonempty neutralWindow (by decide),
      analyzeCore_conv neutralWindow neutralRows hconv, hmax]
    have hr : itemValues neutralRows itemRise = [some 45] := by
      simp [itemValues, neutralRows, List.filter, itemRise, itemFall, itemFlat, itemSusp,
        itemLimitUp]
    have hf : itemValues neutralRows itemFall = [some 55] := by
      simp [itemValues, neutralRows, List.filter, itemRise, itemFall, itemFlat, itemSusp,
        itemLimitUp]
    have hfl : itemValues neutralRows itemFlat = [some 0] := by
      simp [itemValues, neutralRows, List.filter, itemRise, itemFall, itemFlat, itemSusp,
        itemLimitUp]
    have hs : itemValues neutralRows itemSusp = [some 0] := by
      simp [itemValues, neutralRows, List.filter, itemRise, itemFall, itemFlat, itemSusp,
        itemLimitUp]
    have ha : itemValues neutralRows itemActivity = [] := by
      simp [itemValues, neutralRows, List.filter, itemRise, itemFall, itemFlat, itemSusp,
        itemLimitUp, itemActivity]
    have hl : itemValues neutralRows itemLimitUp = [some 10] := by
      simp [itemValues, neutralRows, List.filter, itemRise, itemFall, itemFlat, itemSusp,
        itemLimitUp]
    have htot : totalOf neutralRows = some 100 := by
      norm_num [totalOf, hr, hf, hfl, hs, pfAdd]
    have hrr : pfRound2 (pfMul (pfDiv (some (45 : ℚ)) (some (100 : ℚ))) (some 100)) =
        some 45 := by
      norm_num [pfMul, pfDiv, pfRound2, round2q, rhe]
    norm_num [classifyConverted, stepTotals, stepActivity, stepLimitUp, hr, hf, hfl, hs, ha, hl,
      htot, hrr, defaultAnalysis, sentimentLabel, pfGt, pfLt]

/-- C1 witness: the general clause instantiated at the bullish window. -/
theorem sentiment_rules_correct_witness :
    (analyzeCore bullWindow).sentiment =
      sentimentLabel (analyzeCore bullWindow).rise_ratio (analyzeCore bullWindow).limit_up_count :=
  sentiment_rules_correct.1 bullWindow bullRows (by
    have hlat : latestRows bullWindow = bullWindow := by
      simp [latestRows, maxDate, bullWindow, List.filter]
    rw [hlat]; simp [convertValues, convertVal, bullWindow, bullRows])

/-- C2: when the value-column conversion inside the try block raises, the
classifier still returns the dictionary populated so far (the defaults,
with the date set), not an error and not None: the exception does not
escape analyze_market_sentiment. -/
theorem classifier_catches_exceptions :
    ∀ w : List Row, w ≠ [] → convertValues (latestRows w) = none →
      analyzeMarketSentiment (some w) = some (defaultAnalysis (maxDate w)) := by
  intro w hne hconv
  cases w with
  | nil => exact absurd rfl hne
  | cons r rs =>
    rw [analyzeMarketSentiment_cons]
    simp [analyzeCore, hconv]

/-- C2 witness: a window whose only value is an unparseable string. -/
theorem classifier_catches_exceptions_witness :
    analyzeMarketSentiment (some badWindow) = some (defaultAnalysis (maxDate badWindow)) :=
  classifier_catches_exceptions badWindow (by simp [badWindow])
    (by
      have hlat : latestRows badWindow = badWindow := by
        simp [latestRows, maxDate, badWindow, List.filter]
      have hp : pyParseFloat (stripPercent abcS) = none := by decide
      simp [hlat, badWindow, convertValues, convertVal, hp])

/-- C3: every successful load returns exactly the subsequence of the
normalized rows whose date is at least now - days (inclusive lower bound,
no upper bound); for dates d-100, d-61, d-60, d-1, d with a 60-day window
relative to now = d, exactly the three rows dated at least d-60 are
selected. -/
theorem window_selection_correct :
    (∀ (listing : List String) (rows : List Row) (now days : ℤ) (l : List Row),
      loadRecentData listing (.table rows) now days = some l →
        List.Sublist l (rows.map (fun r => { r with value := normalizeValue r.value }))
        ∧ ∀ r : Row, r ∈ l ↔
            (r ∈ rows.map (fun s => { s with value := normalizeValue s.value })
              ∧ now - days ≤ r.date))
    ∧ (∀ d : ℤ, loadRecentData demoListing (.table (histRows d)) d 60 = some (selRows d)) := by
  constructor
  · intro listing rows now days l h
    cases hc : (listingCsvFiles listing).isEmpty with
    | true => simp [loadRecentData, hc] at h
    | false =>
      simp only [loadRecentData, hc, Bool.false_eq_true, if_false, Option.some.injEq] at h
      subst h
      refine ⟨List.filter_sublist _, fun r => ?_⟩
      simp [List.mem_filter]
  · intro d
    have hL : (listingCsvFiles demoListing).isEmpty = false := by decide
    have e1 : (decide (d - 60 ≤ d - 100)) = false := by rw [decide_eq_false_iff_not]; omega
    have e2 : (decide (d - 60 ≤ d - 61)) = false := by rw [decide_eq_false_iff_not]; omega
    have e3 : (decide (d - 60 ≤ d - 60)) = true := by rw [decide_eq_true_eq]
    have e4 : (decide (d - 60 ≤ d - 1)) = true := by rw [decide_eq_true_eq]; omega
    have e5 : (decide (d - 60 ≤ d)) = true := by rw [decide_eq_true_eq]; omega
    simp only [loadRecentData, hL, Bool.false_eq_true, if_false, histRows, selRows,
      List.map_cons, List.map_nil, normalizeValue, List.filter_cons, List.filter_nil,
      e1, e2, e3, e4, e5, if_true, if_false]

/-- C3 witness: the general clause instantiated at the five-row history
with now = 0, its hypothesis discharged by the example clause. -/
theorem window_selection_correct_witness :
    List.Sublist (selRows 0) ((histRows 0).map (fun r => { r with value := normalizeValue r.value }))
    ∧ ∀ r : Row, r ∈ selRows 0 ↔
        (r ∈ (histRows 0).map (fun s => { s with value := normalizeValue s.value })
          ∧ 0 - 60 ≤ r.date) :=
  window_selection_correct.1 demoListing (histRows 0) 0 60 (selRows 0)
    (window_selection_correct.2 0)

/-- C4: normalization passes numbers through unchanged, strips every
percent sign from a string and parses the remainder as a float, and on a
failed parse yields the NaN sentinel - not a raised error and not zero. -/
theorem normalize_correct :
    (∀ q : ℚ, normalizeValue (.num q) = .num q)
    ∧ (∀ s : String, normalizeValue (.str s) =
        ((pyParseFloat (stripPercent s)).map PyVal.num).getD PyVal.nan)
    ∧ normalizeValue (.str pct123S) = .num (123/10)
    ∧ normalizeValue (.str fiveS) = .num 5
    ∧ normalizeValue (.str abcS) = .nan
    ∧ normalizeValue (.str abcS) ≠ .num 0
    ∧ normalizeValue (.num 7) = .num 7 := by
  refine ⟨fun q => rfl, fun s => ?_, ?_, ?_, by decide, by decide, rfl⟩
  · cases h : pyParseFloat (stripPercent s) <;> simp [normalizeValue, h]
  · have hp : pyParseRepr (stripPercent pct123S) = some (123, 1) := by decide
    norm_num [normalizeValue, pyParseFloat, hp]
  · have hp : pyParseRepr (stripPercent fiveS) = some (5, 0) := by decide
    norm_num [normalizeValue, pyParseFloat, hp]

/-- C5 counterexample: with an existing but unreadable artifact, the
append neither degrades to a fresh write nor returns normally - the read
error escapes save_to_csv, which has no exception handler. -/
theorem save_merge_failure_cex :
    saveToCsv .corrupt demoBatch 0 = .error ()
    ∧ saveToCsv .corrupt demoBatch 0 ≠ .ok (.stored (demoBatch.map (stampRow 0))) :=
  ⟨rfl, by simp [saveToCsv]⟩

/-- C5 amended: when reading the existing history fails, the exception
propagates out of the append and no write occurs; a fresh write happens
only when no prior artifact exists. -/
theorem save_merge_failure_amended :
    (∀ (batch : List BatchRow) (now : ℤ), saveToCsv .corrupt batch now = .error ())
    ∧ (∀ (batch : List BatchRow) (now : ℤ),
        saveToCsv .absent batch now = .ok (.stored (batch.map (stampRow now)))) :=
  ⟨fun _ _ => rfl, fun _ _ => rfl⟩

/-- C6 counterexample: on a window whose activity value is 12.345 and
whose limit-up value is 80.5, the classifier stores the activity value
unrounded (not rounded to 2 decimals) and the limit-up value as the float
80.5 (not converted to the integer 80). -/
theorem classifier_fields_cex :
    (analyzeCore floatWindow).activity_level = some (2469/200)
    ∧ ¬((analyzeCore floatWindow).activity_level = some (round2q (2469/200)))
    ∧ (analyzeCore floatWindow).limit_up_count = some (161/2)
    ∧ ¬((analyzeCore floatWindow).limit_up_count = some ((⌊(161/2 : ℚ)⌋ : ℚ))) := by
  have hlat : latestRows floatWindow = floatWindow := by
    simp [latestRows, maxDate, floatWindow, List.filter]
  have hp : pyParseRepr (stripPercent actRawS) = some (12345, 3) := by decide
  have hconv : convertValues (latestRows floatWindow) = some floatRows := by
    rw [hlat]; norm_num [convertValues, convertVal, floatWindow, floatRows, pyParseFloat, hp]
  have ha : itemValues floatRows itemActivity = [some (2469/200)] := by
    simp [itemValues, floatRows, List.filter, itemActivity, itemLimitUp]
  have hl : itemValues floatRows itemLimitUp = [some (161/2)] := by
    simp [itemValues, floatRows, List.filter, itemActivity, itemLimitUp]
  rw [analyzeCore_conv floatWindow floatRows hconv]
  refine ⟨?_, ?_, ?_, ?_⟩
  · rw [classifyConverted_activity, ha]; rfl
  · rw [classifyConverted_activity, ha]
    norm_num [round2q, rhe]
  · rw [classifyConverted_limit, hl]; rfl
  · rw [classifyConverted_limit, hl]
    norm_num

/-- C6 amended: activity_level is the first activity value as converted
(unrounded) and limit_up_count the first limit-up value as converted (a
float, with no integer conversion), each defaulting to zero when the
series is absent. -/
theorem classifier_fields_amended :
    ∀ (w : List Row) (rows : List CRow), convertValues (latestRows w) = some rows →
      (analyzeCore w).activity_level = (itemValues rows itemActivity).headD (some 0)
      ∧ (analyzeCore w).limit_up_count = (itemValues rows itemLimitUp).headD (some 0) := by
  intro w rows h
  rw [analyzeCore_conv w rows h]
  exact ⟨classifyConverted_activity _ _, classifyConverted_limit _ _⟩

/-- C6 witness: the amended clause instantiated at the fractional-value
window. -/
theorem classifier_fields_amended_witness :
    (analyzeCore floatWindow).activity_level = (itemValues floatRows itemActivity).headD (some 0)
    ∧ (analyzeCore floatWindow).limit_up_count =
        (itemValues floatRows itemLimitUp).headD (some 0) :=
  classifier_fields_amended floatWindow floatRows (by
    have hlat : latestRows floatWindow = floatWindow := by
      simp [latestRows, maxDate, floatWindow, List.filter]
    have hp : pyParseRepr (stripPercent actRawS) = some (12345, 3) := by decide
    rw [hlat]; norm_num [convertValues, convertVal, floatWindow, floatRows, pyParseFloat, hp])

/-- C7: when any of the four required series is missing from the latest
day, total_stocks and rise_ratio keep their zero defaults, the classifier
still extracts activity and limit-up and still computes the sentiment
label, and the call completes without an unhandled error. -/
theorem classifier_missing_items :
    ∀ (w : List Row) (rows : List CRow), w ≠ [] →
      convertValues (latestRows w) = some rows →
      ((itemValues rows itemRise).isEmpty || (itemValues rows itemFall).isEmpty
        || (itemValues rows itemFlat).isEmpty || (itemValues rows itemSusp).isEmpty) = true →
      (analyzeCore w).total_stocks = some 0
      ∧ (analyzeCore w).rise_ratio = some 0
      ∧ (analyzeCore w).activity_level = (itemValues rows itemActivity).headD (some 0)
      ∧ (analyzeCore w).limit_up_count = (itemValues rows itemLimitUp).headD (some 0)
      ∧ (analyzeCore w).sentiment =
          sentimentLabel (analyzeCore w).rise_ratio (analyzeCore w).limit_up_count
      ∧ analyzeMarketSentiment (some w) = some (analyzeCore w) := by
  intro w rows hne hconv hmiss
  refine ⟨?_, ?_, ?_, ?_, ?_, ?_⟩
  · rw [analyzeCore_conv w rows hconv]
    simp [classifyConverted, stepLimitUp, stepActivity, stepTotals_skip _ _ hmiss,
      defaultAnalysis]
  · rw [analyzeCore_conv w rows hconv]
    simp [classifyConverted, stepLimitUp, stepActivity, stepTotals_skip _ _ hmiss,
      defaultAnalysis]
  · rw [analyzeCore_conv w rows hconv]; exact classifyConverted_activity _ _
  · rw [analyzeCore_conv w rows hconv]; exact classifyConverted_limit _ _
  · rw [analyzeCore_conv w rows hconv]; exact classifyConverted_sentiment _ _
  · cases w with
    | nil => exact absurd rfl hne
    | cons r rs => exact analyzeMarketSentiment_cons r rs

/-- C7 witness: a window carrying only the activity item. -/
theorem classifier_missing_items_witness :
    (analyzeCore missingWindow).total_stocks = some 0
    ∧ (analyzeCore missingWindow).rise_ratio = some 0
    ∧ (analyzeCore missingWindow).activity_level =
        (itemValues missingRows itemActivity).headD (some 0)
    ∧ (analyzeCore missingWindow).limit_up_count =
        (itemValues missingRows itemLimitUp).headD (some 0)
    ∧ (analyzeCore missingWindow).sentiment =
        sentimentLabel (analyzeCore missingWindow).rise_ratio
          (analyzeCore missingWindow).limit_up_count
    ∧ analyzeMarketSentiment (some missingWindow) = some (analyzeCore missingWindow) :=
  classifier_missing_items missingWindow missingRows (by simp [missingWindow])
    (by
      have hlat : latestRows missingWindow = missingWindow := by
        simp [latestRows, maxDate, missingWindow, List.filter]
      rw [hlat]; simp [convertValues, convertVal, missingWindow, missingRows])
    (by decide)

/-- C8: appending batch A and then batch B at the same fetch time equals
appending A ++ B in one call, over every artifact state; on an existing
readable history the new stamped rows are concatenated after the existing
rows in batch order. -/
theorem save_append_assoc :
    (∀ (art : Artifact) (a b : List BatchRow) (now : ℤ),
      Except.bind (saveToCsv art a now) (fun x => saveToCsv x b now) = saveToCsv art (a ++ b) now)
    ∧ (∀ (h : List Row) (a : List BatchRow) (now : ℤ),
        saveToCsv (.stored h) a now = .ok (.stored (h ++ a.map (stampRow now)))) := by
  refine ⟨fun art a b now => ?_, fun h a now => rfl⟩
  cases art <;> simp [saveToCsv, Except.bind]

/-- C9 counterexample: a readable history whose single row is older than
the window yields an empty selection, and load_recent_data returns that
empty table, not the distinguished no-data marker None. -/
theorem load_empty_selection_cex :
    loadRecentData demoListing (.table [oldRow]) 0 60 ≠ none
    ∧ loadRecentData demoListing (.table [oldRow]) 0 60 = some [] := by
  have hL : (listingCsvFiles demoListing).isEmpty = false := by decide
  constructor <;> simp [loadRecentData, hL, oldRow, normalizeValue]

/-- C9 amended: load_recent_data returns None exactly when no candidate
file exists or the read fails; an empty window selection is returned as an
empty sequence, which callers detect by an emptiness check. -/
theorem load_no_data_amended :
    (∀ (listing : List String) (latest : ReadOutcome) (now days : ℤ),
      (listingCsvFiles listing).isEmpty = true → loadRecentData listing latest now days = none)
    ∧ (∀ (listing : List String) (now days : ℤ), loadRecentData listing .failure now days = none)
    ∧ loadRecentData demoListing (.table [oldRow]) 0 60 = some [] := by
  refine ⟨fun listing latest now days h => by simp [loadRecentData, h],
    fun listing now days => by unfold loadRecentData; split <;> rfl, ?_⟩
  have hL : (listingCsvFiles demoListing).isEmpty = false := by decide
  simp [loadRecentData, hL, oldRow, normalizeValue]

/-- C9 witness: the no-candidate-files clause instantiated at the empty
listing. -/
theorem load_no_data_amended_witness :
    loadRecentData [] .failure 0 60 = none :=
  load_no_data_amended.1 [] .failure 0 60 (by decide)

/-- C10: a missing frame and an empty frame produce no analysis result at
all, and every non-empty window produces one. -/
theorem classifier_none_on_empty :
    analyzeMarketSentiment none = none
    ∧ analyzeMarketSentiment (some []) = none
    ∧ ∀ w : List Row, w ≠ [] → analyzeMarketSentiment (some w) = some (analyzeCore w) := by
  refine ⟨rfl, rfl, fun w hne => ?_⟩
  cases w with
  | nil => exact absurd rfl hne
  | cons r rs => exact analyzeMarketSentiment_cons r rs

/-- C10 witness: the non-empty clause instantiated at a one-row window. -/
theorem classifier_none_on_empty_witness :
    analyzeMarketSentiment (some missingWindow) = some (analyzeCore missingWindow) :=
  classifier_none_on_empty.2.2 missingWindow (by simp [missingWindow])

end StockMarket
